import Mathlib

/-
Verification of the two scripts in this repository (src/mouse.py and
src/mouseid.py) against their specification.

The scripts are single event callbacks registered with the pynput
input-hook library.  We embed each callback as a pure Lean function:
the observable side effects (guard-flag assignments, synthetic key
presses and releases, sleeps) become an explicit trace of actions, the
process-wide boolean `is_script_running` becomes explicit state passed
in and returned, and the two calls to `random.uniform(0.096, 0.1)`
become applications of `uniform` to a unit random source supplied as an
argument.
-/

namespace Scripting

/-- Mouse buttons as exposed by the input-hook library (pynput
provides `left`, `middle`, `right`, `x1`, `x2`). -/
inductive Button where
  | left
  | middle
  | right
  | x1
  | x2
deriving DecidableEq

/-- `button_to_trigger = mouse.Button.x2` (src/mouse.py line 5). -/
def button_to_trigger : Button := Button.x2

/-- One observable side effect of the replay callback in src/mouse.py:
an assignment to the global guard flag `is_script_running`, a synthetic
key press or release through `keyboard.Controller()`, or a call to
`time.sleep` with a duration in seconds. -/
inductive Action where
  | setGuard (b : Bool)
  | press (k : Char)
  | release (k : Char)
  | sleep (d : ℚ)
deriving DecidableEq

/-- Python `random.uniform a b` returns `a + (b - a) * random()` where
`random()` draws uniformly from the unit interval; we pass the unit
draw `r` explicitly. -/
def uniform (a b r : ℚ) : ℚ := a + (b - a) * r

/-- The body of the triggered branch of `on_click` in src/mouse.py
(lines 13 to 34), as the trace of its side effects in program order.
`r1` and `r2` are the unit random draws consumed by the two calls to
`random.uniform(0.096, 0.1)`. -/
def replay_trace (r1 r2 : ℚ) : List Action :=
  [ .setGuard true,
    .press 'v',
    .sleep (uniform 0.096 0.1 r1),
    .release 'v',
    .sleep 0.005,
    .press '2',
    .release '2',
    .press '1',
    .sleep (uniform 0.096 0.1 r2),
    .release '1',
    .setGuard false ]

/-- Result of one invocation of the replay callback: its side-effect
trace, the value of the global `is_script_running` after the call, and
the Python return value of the callback (`none` models `None`;
returning `some false` would stop a pynput listener). -/
structure ClickResult where
  trace : List Action
  is_script_running : Bool
  ret : Option Bool
deriving DecidableEq

/-- `on_click` from src/mouse.py (lines 10 to 34).  The guard test is
`button == button_to_trigger and pressed and not is_script_running`;
when it holds the callback runs the replay sequence (which sets the
guard true first and back to false last), otherwise it does nothing. -/
def on_click (x y : Int) (button : Button) (pressed : Bool)
    (is_script_running : Bool) (r1 r2 : ℚ) : ClickResult :=
  if button = button_to_trigger ∧ pressed = true ∧ is_script_running = false then
    { trace := replay_trace r1 r2, is_script_running := false, ret := none }
  else
    { trace := [], is_script_running := is_script_running, ret := none }

/-- Whether an action is a synthetic key event (press or release). -/
def isKeyEvent : Action → Bool
  | .press _ => true
  | .release _ => true
  | _ => false

/-- The key events of a trace, in order. -/
def keyEvents (tr : List Action) : List Action := tr.filter isKeyEvent

/-- Value of the guard flag after executing a prefix of a trace,
starting from `init`: the last `setGuard` wins, other actions leave the
flag unchanged. -/
def guardAfter (init : Bool) (tr : List Action) : Bool :=
  tr.foldl (fun s a => match a with | .setGuard b => b | _ => s) init

/-- Keys logically held down after executing a trace: a press adds the
key, a release removes it, other actions change nothing. -/
def heldKeys (tr : List Action) : List Char :=
  tr.foldl
    (fun ks a =>
      match a with
      | .press k => ks ++ [k]
      | .release k => ks.erase k
      | _ => ks) []

/-- One mouse button transition delivered to the callback, together
with the unit random draws its invocation would consume. -/
structure MouseEvent where
  x : Int
  y : Int
  button : Button
  pressed : Bool
  r1 : ℚ
  r2 : ℚ

/-- Deliver a list of events to `on_click` one after the other, the way
the single pynput listener thread does, threading the guard flag
through and collecting the trace of each invocation. -/
def processEvents (s : Bool) : List MouseEvent → Bool × List (List Action)
  | [] => (s, [])
  | e :: es =>
      let res := on_click e.x e.y e.button e.pressed s e.r1 e.r2
      let rest := processEvents res.is_script_running es
      (rest.1, res.trace :: rest.2)

/-- String form of a pynput button, as Python prints it. -/
def buttonStr : Button → String
  | .left => "Button.left"
  | .middle => "Button.middle"
  | .right => "Button.right"
  | .x1 => "Button.x1"
  | .x2 => "Button.x2"

/-- Result of one invocation of the diagnostic callback in
src/mouseid.py: the printed line and the Python return value. -/
structure IdClickResult where
  line : String
  ret : Option Bool
deriving DecidableEq

/-- `on_click` from src/mouseid.py (lines 5 to 6): print
`Button <button> pressed` or `Button <button> released` and return. -/
def mouseid_on_click (x y : Int) (button : Button) (pressed : Bool) :
    IdClickResult :=
  { line := "Button " ++ buttonStr button ++ " "
      ++ (if pressed then "pressed" else "released"),
    ret := none }

/-- Console output of the diagnostic program on a list of synthetic
(button, pressed) events: the lines printed, in delivery order.
Cursor coordinates are supplied as zero; they do not influence the
callback. -/
def mouseid_lines (events : List (Button × Bool)) : List String :=
  events.map (fun e => (mouseid_on_click 0 0 e.1 e.2).line)

/-- How the blocking `listener.join()` call ends: normal return, a
KeyboardInterrupt raised by Ctrl+C, or some other exception. -/
inductive JoinOutcome where
  | normal
  | keyboardInterrupt
  | otherError (msg : String)
deriving DecidableEq

/-- How the process ends: a clean exit with the default exit code and
no error message, or termination by an uncaught exception with a
diagnostic trace and a nonzero exit code. -/
inductive ExitResult where
  | cleanExit
  | uncaught (msg : String)
deriving DecidableEq

/-- The main block of src/mouse.py (lines 37 to 42): `listener.join()`
inside `try ... except KeyboardInterrupt: pass`, so a KeyboardInterrupt
is swallowed and the script falls off the end cleanly; any other
exception propagates. -/
def mouse_main (o : JoinOutcome) : ExitResult :=
  match o with
  | .normal => .cleanExit
  | .keyboardInterrupt => .cleanExit
  | .otherError m => .uncaught m

/-- The main block of src/mouseid.py (lines 10 to 11): a bare
`listener.join()` with no exception handler, so every exception,
KeyboardInterrupt included, propagates and terminates the process with
a traceback. -/
def mouseid_main (o : JoinOutcome) : ExitResult :=
  match o with
  | .normal => .cleanExit
  | .keyboardInterrupt => .uncaught "KeyboardInterrupt"
  | .otherError m => .uncaught m

/-- C1: a press of the trigger button while the guard flag is false
emits exactly press v, release v, press 2, release 2, press 1,
release 1, in that order, and no other key events. -/
theorem C1_replay_key_sequence (x y : Int) (r1 r2 : ℚ) :
    keyEvents (on_click x y button_to_trigger true false r1 r2).trace =
      [.press 'v', .release 'v', .press '2', .release '2',
       .press '1', .release '1'] := by
  rfl

/-- C2: any event that is not a trigger-button press with the guard
flag false (trigger press while guarded, any non-trigger button event,
or a trigger release) emits no key events and leaves the guard flag
unchanged. -/
theorem C2_non_trigger_noop (x y : Int) (b : Button) (p s : Bool) (r1 r2 : ℚ)
    (h : ¬ (b = button_to_trigger ∧ p = true ∧ s = false)) :
    (on_click x y b p s r1 r2).trace = [] ∧
      (on_click x y b p s r1 r2).is_script_running = s := by
  rw [on_click, if_neg h]
  exact ⟨rfl, rfl⟩

/-- Witness for C2 at a concrete non-trigger event: a press of the
left button with the guard flag false is a no-op. -/
theorem C2_non_trigger_noop_witness :
    (on_click 0 0 Button.left true false 0 0).trace = [] ∧
      (on_click 0 0 Button.left true false 0 0).is_script_running = false :=
  C2_non_trigger_noop 0 0 Button.left true false 0 0 (by decide)

/-- C3: a triggered invocation sets the guard flag true as its first
action and back to false as its last; starting from a false flag the
invocation ends with the flag false, so the flag is true only during
the replay sequence. -/
theorem C3_guard_flag_lifecycle (x y : Int) (r1 r2 : ℚ) :
    (on_click x y button_to_trigger true false r1 r2).trace.head? =
        some (.setGuard true) ∧
      (on_click x y button_to_trigger true false r1 r2).trace.getLast? =
        some (.setGuard false) ∧
      guardAfter false (on_click x y button_to_trigger true false r1 r2).trace =
        false ∧
      (on_click x y button_to_trigger true false r1 r2).is_script_running =
        false :=
  ⟨rfl, rfl, rfl, rfl⟩

/-- C4: two consecutive trigger presses, the second delivered after the
first replay has completed, both emit the full replay sequence; the
guard flag is false again after the first, so the second is not
suppressed. -/
theorem C4_second_press_processed (a b c d : Int) (r1 r2 r3 r4 : ℚ) :
    processEvents false
        [⟨a, b, button_to_trigger, true, r1, r2⟩,
         ⟨c, d, button_to_trigger, true, r3, r4⟩] =
      (false, [replay_trace r1 r2, replay_trace r3 r4]) ∧
      keyEvents (replay_trace r3 r4) =
        [.press 'v', .release 'v', .press '2', .release '2',
         .press '1', .release '1'] :=
  ⟨rfl, rfl⟩

/-- C5: the diagnostic handler prints exactly one line per event, in
delivery order, of the form `Button <button> pressed|released`, with no
filtering or deduplication; on the three-event example the output is
the three corresponding lines in order. -/
theorem C5_one_line_per_event :
    (∀ (events : List (Button × Bool)) (i : Nat),
        (mouseid_lines events).get? i =
          (events.get? i).map
            (fun e => (mouseid_on_click 0 0 e.1 e.2).line)) ∧
      mouseid_lines [(Button.x1, true), (Button.x1, false), (Button.x2, true)] =
        ["Button Button.x1 pressed", "Button Button.x1 released",
         "Button Button.x2 pressed"] := by
  constructor
  · intro events i
    simp [mouseid_lines]
  · rfl

/-- C6 counterexample: the claim says both programs treat a
KeyboardInterrupt during `listener.join()` as a clean shutdown, but
src/mouseid.py has no exception handler, so there the interrupt
propagates and the process does not exit cleanly. -/
theorem C6_counterexample :
    ¬ mouseid_main JoinOutcome.keyboardInterrupt = ExitResult.cleanExit := by
  decide

/-- C6 amended: in src/mouse.py a KeyboardInterrupt raised while
joining the listener is caught and the process exits cleanly with no
error message; in src/mouseid.py it is unhandled, so it terminates the
process with a traceback. -/
theorem C6_interrupt_handling :
    mouse_main JoinOutcome.keyboardInterrupt = ExitResult.cleanExit ∧
      mouseid_main JoinOutcome.keyboardInterrupt =
        ExitResult.uncaught "KeyboardInterrupt" :=
  ⟨rfl, rfl⟩

/-- C7: with the unit random draws in [0, 1], the hold duration of key
v and the hold duration of key 1 each lie in the closed interval
[96, 100] milliseconds (that is, [96/1000, 100/1000] seconds), and the
wait between releasing v and pressing 2 is exactly 5 milliseconds. -/
theorem C7_timing_bounds (x y : Int) (r1 r2 : ℚ)
    (hr1 : 0 ≤ r1) (hr2 : r1 ≤ 1) (hr3 : 0 ≤ r2) (hr4 : r2 ≤ 1) :
    ∃ d1 d2 : ℚ,
      (on_click x y button_to_trigger true false r1 r2).trace =
        [ .setGuard true,
          .press 'v', .sleep d1, .release 'v',
          .sleep (5 / 1000),
          .press '2', .release '2',
          .press '1', .sleep d2, .release '1',
          .setGuard false ] ∧
      96 / 1000 ≤ d1 ∧ d1 ≤ 100 / 1000 ∧
      96 / 1000 ≤ d2 ∧ d2 ≤ 100 / 1000 := by
  refine ⟨uniform 0.096 0.1 r1, uniform 0.096 0.1 r2, ?_, ?_, ?_, ?_, ?_⟩
  · show replay_trace r1 r2 = _
    unfold replay_trace
    norm_num
  · unfold uniform; nlinarith
  · unfold uniform; nlinarith
  · unfold uniform; nlinarith
  · unfold uniform; nlinarith

/-- Witness for C7 with both unit draws equal to one half. -/
theorem C7_timing_bounds_witness :
    ∃ d1 d2 : ℚ,
      (on_click 0 0 button_to_trigger true false (1 / 2) (1 / 2)).trace =
        [ .setGuard true,
          .press 'v', .sleep d1, .release 'v',
          .sleep (5 / 1000),
          .press '2', .release '2',
          .press '1', .sleep d2, .release '1',
          .setGuard false ] ∧
      96 / 1000 ≤ d1 ∧ d1 ≤ 100 / 1000 ∧
      96 / 1000 ≤ d2 ∧ d2 ≤ 100 / 1000 :=
  C7_timing_bounds 0 0 (1 / 2) (1 / 2)
    (by norm_num) (by norm_num) (by norm_num) (by norm_num)

/-- C8: if a triggered invocation stops after any proper nonempty
prefix of its action sequence (a fatal error before the final guard
reset), the guard flag is still true — no cleanup path resets it — and
a stop between press v and its release leaves v logically held. -/
theorem C8_crash_leaves_guard_set (x y : Int) (r1 r2 : ℚ) (k : Nat)
    (hk1 : 1 ≤ k)
    (hk2 : k < (on_click x y button_to_trigger true false r1 r2).trace.length) :
    guardAfter false
        ((on_click x y button_to_trigger true false r1 r2).trace.take k) =
        true ∧
      heldKeys
        ((on_click x y button_to_trigger true false r1 r2).trace.take 2) =
        ['v'] := by
  have ht : (on_click x y button_to_trigger true false r1 r2).trace =
      replay_trace r1 r2 := rfl
  rw [ht] at hk2 ⊢
  have hlen : (replay_trace r1 r2).length = 11 := rfl
  rw [hlen] at hk2
  refine ⟨?_, rfl⟩
  interval_cases k <;> rfl

/-- Witness for C8: a crash right after press v (prefix of length 2)
leaves the guard flag true and v held. -/
theorem C8_crash_leaves_guard_set_witness :
    guardAfter false
        ((on_click 0 0 button_to_trigger true false 0 0).trace.take 2) =
        true ∧
      heldKeys ((on_click 0 0 button_to_trigger true false 0 0).trace.take 2) =
        ['v'] :=
  C8_crash_leaves_guard_set 0 0 0 0 2 (by decide) (by decide)

/-- C9: the cursor coordinates are unused by both handlers: two
invocations that differ only in the coordinates produce identical
results. -/
theorem C9_coordinates_unused (a b c d : Int) (button : Button)
    (pressed s : Bool) (r1 r2 : ℚ) :
    on_click a b button pressed s r1 r2 = on_click c d button pressed s r1 r2 ∧
      mouseid_on_click a b button pressed = mouseid_on_click c d button pressed :=
  ⟨rfl, rfl⟩

/-- C10: neither callback ever returns a stop sentinel to the listener:
both return None on every input, so listening continues after every
handled event. -/
theorem C10_listener_never_stopped (x y : Int) (button : Button)
    (pressed s : Bool) (r1 r2 : ℚ) :
    (on_click x y button pressed s r1 r2).ret = none ∧
      (mouseid_on_click x y button pressed).ret = none := by
  refine ⟨?_, rfl⟩
  unfold on_click
  split <;> rfl

end Scripting
